import Mathlib

/-!
Shallow embedding of the data model and conversion layer of the
`horaedb-client-py` binding (files `src/model.rs`, `src/client.rs`).

The binding wraps types of the native `horaedb_client` crate.  Rust
structs become Lean structures, Rust enums become Lean inductives,
`&self`/`&mut self` methods become pure functions (state in, state out).
Unchecked slice indexing (which panics out of bounds in Rust) is
modelled with `Option`: a `none` result marks the out-of-bounds panic.
Machine integers carry no arithmetic in this layer, so `u8/u16/u32/u64`
payloads are `Nat`, `i8/i16/i32/i64` payloads are `Int`, and `f32/f64`
payloads are `Float` values that are never inspected.
-/

/-- Alias used for `f64` payloads of the native value type. -/
abbrev Float64 := Float

/-- Alias used for `f32` payloads of the native value type. -/
abbrev Float32 := Float

/-- Mirror of `horaedb_client::model::value::DataType`: the enumerated
tag of a native value. -/
inductive RustDataType
  | Null
  | Timestamp
  | Double
  | Float
  | Varbinary
  | String
  | UInt64
  | UInt32
  | UInt16
  | UInt8
  | Int64
  | Int32
  | Int16
  | Int8
  | Boolean
deriving DecidableEq, Repr

/-- Mirror of `horaedb_client::model::value::Value`: the closed set of
typed scalar variants used for write payloads and decoded read columns. -/
inductive RustValue
  | Null
  | Timestamp (v : Int)
  | Double (v : Float64)
  | Float (v : Float32)
  | Varbinary (v : List Nat)
  | String (v : String)
  | UInt64 (v : Nat)
  | UInt32 (v : Nat)
  | UInt16 (v : Nat)
  | UInt8 (v : Nat)
  | Int64 (v : Int)
  | Int32 (v : Int)
  | Int16 (v : Int)
  | Int8 (v : Int)
  | Boolean (v : Bool)

/-- Modelled from the spec: `DataType` is "the enumerated tag of `Value`"
(the `data_type()` accessor of the native crate's value type, which is
not part of this repository); it reports each variant's own tag. -/
def RustValue.data_type : RustValue → RustDataType
  | .Null => .Null
  | .Timestamp _ => .Timestamp
  | .Double _ => .Double
  | .Float _ => .Float
  | .Varbinary _ => .Varbinary
  | .String _ => .String
  | .UInt64 _ => .UInt64
  | .UInt32 _ => .UInt32
  | .UInt16 _ => .UInt16
  | .UInt8 _ => .UInt8
  | .Int64 _ => .Int64
  | .Int32 _ => .Int32
  | .Int16 _ => .Int16
  | .Int8 _ => .Int8
  | .Boolean _ => .Boolean

/-- The `DataType` pyclass of `src/model.rs`: the data type definitions
for the read/write protocol. -/
inductive DataType
  | Null
  | Timestamp
  | Double
  | Float
  | Varbinary
  | String
  | UInt64
  | UInt32
  | UInt16
  | UInt8
  | Int64
  | Int32
  | Int16
  | Int8
  | Boolean
deriving DecidableEq, Repr

/-- The `impl From<RustDataType> for DataType` of `src/model.rs`. -/
def DataType.fromRust : RustDataType → DataType
  | .Null => .Null
  | .Timestamp => .Timestamp
  | .Double => .Double
  | .Float => .Float
  | .Varbinary => .Varbinary
  | .String => .String
  | .UInt64 => .UInt64
  | .UInt32 => .UInt32
  | .UInt16 => .UInt16
  | .UInt8 => .UInt8
  | .Int64 => .Int64
  | .Int32 => .Int32
  | .Int16 => .Int16
  | .Int8 => .Int8
  | .Boolean => .Boolean

/-- Modelled from the spec: a native column of a query-result row (the
`Column` of `horaedb_client::model::sql_query::row`), a (name, datum)
pair. -/
structure RustColumn where
  name : String
  value : RustValue

/-- Modelled from the spec: a native query-result row (the `Row` of
`horaedb_client::model::sql_query::row`), an ordered list of columns. -/
structure RustRow where
  columns : List RustColumn

/-- The `SqlQueryResponse` pyclass of `src/model.rs`: a shared row
buffer plus the affected-row count.  The `Arc` sharing is implicit in
the functional embedding (the buffer value is copied by reference). -/
structure SqlQueryResponse where
  rust_rows : List RustRow
  affected_rows : Nat

/-- The `Row` pyclass of `src/model.rs`: a view holding the shared row
buffer and its own row position. -/
structure Row where
  row_idx : Nat
  rust_rows : List RustRow

/-- The `Column` pyclass of `src/model.rs`: a view holding the shared
row buffer and a (row position, column position) pair. -/
structure Column where
  row_idx : Nat
  col_idx : Nat
  rust_rows : List RustRow

/-- The `RowIter` pyclass of `src/model.rs`. -/
structure RowIter where
  rust_rows : List RustRow
  next_row_idx : Nat

/-- The `ColumnIter` pyclass of `src/model.rs`. -/
structure ColumnIter where
  rust_rows : List RustRow
  row_idx : Nat
  next_col_idx : Nat

/-- `SqlQueryResponse::num_rows` of `src/model.rs`. -/
def SqlQueryResponse.num_rows (resp : SqlQueryResponse) : Nat :=
  resp.rust_rows.length

/-- `SqlQueryResponse::row_by_idx` of `src/model.rs`. -/
def SqlQueryResponse.row_by_idx (resp : SqlQueryResponse) (row_idx : Nat) :
    Option Row :=
  if resp.rust_rows.length > row_idx then
    some { rust_rows := resp.rust_rows, row_idx := row_idx }
  else
    none

/-- `SqlQueryResponse::iter_rows` of `src/model.rs`. -/
def SqlQueryResponse.iter_rows (resp : SqlQueryResponse) : RowIter :=
  { rust_rows := resp.rust_rows, next_row_idx := 0 }

/-- The `affected_rows` pyo3 getter of `SqlQueryResponse` in
`src/model.rs`: it reads the stored field. -/
def SqlQueryResponse.get_affected_rows (resp : SqlQueryResponse) : Nat :=
  resp.affected_rows

/-- `RowIter::__next__` of `src/model.rs`: returns the yielded item (if
any) together with the mutated iterator state. -/
def RowIter.next (it : RowIter) : Option Row × RowIter :=
  if it.rust_rows.length > it.next_row_idx then
    (some { rust_rows := it.rust_rows, row_idx := it.next_row_idx },
     { rust_rows := it.rust_rows, next_row_idx := it.next_row_idx + 1 })
  else
    (none, it)

/-- Repeatedly calling `RowIter::__next__` until it yields `None`: the
list of rows the iterator produces. -/
def RowIter.drain (it : RowIter) : List Row :=
  if _h : it.rust_rows.length > it.next_row_idx then
    { rust_rows := it.rust_rows, row_idx := it.next_row_idx } ::
      RowIter.drain { rust_rows := it.rust_rows,
                      next_row_idx := it.next_row_idx + 1 }
  else
    []
termination_by it.rust_rows.length - it.next_row_idx

/-- `Column::get_rust_col` of `src/model.rs`: unchecked indexing into
the shared buffer; `none` models the out-of-bounds panic. -/
def Column.get_rust_col (col : Column) : Option RustColumn :=
  (col.rust_rows[col.row_idx]?).bind fun r => r.columns[col.col_idx]?

/-- `Column::value` of `src/model.rs`, at the level of the decoded
datum (the per-variant marshaling into a host object is the embedding
runtime boundary); `none` models the out-of-bounds panic. -/
def Column.value (col : Column) : Option RustValue :=
  (col.get_rust_col).map RustColumn.value

/-- `Column::data_type` of `src/model.rs`; `none` models the
out-of-bounds panic. -/
def Column.data_type (col : Column) : Option DataType :=
  (col.get_rust_col).map fun c => DataType.fromRust c.value.data_type

/-- `Column::name` of `src/model.rs`; `none` models the out-of-bounds
panic. -/
def Column.get_name (col : Column) : Option String :=
  (col.get_rust_col).map RustColumn.name

/-- `ColumnIter::__next__` of `src/model.rs`: the row fetch
`slf.rust_rows[slf.row_idx]` is unchecked, so the outer `none` models
that panic; the inner option is the iterator's yielded item, paired
with the mutated iterator state. -/
def ColumnIter.next (it : ColumnIter) : Option (Option Column × ColumnIter) :=
  (it.rust_rows[it.row_idx]?).map fun rust_row =>
    if it.next_col_idx < rust_row.columns.length then
      (some { rust_rows := it.rust_rows, row_idx := it.row_idx,
              col_idx := it.next_col_idx },
       { rust_rows := it.rust_rows, row_idx := it.row_idx,
         next_col_idx := it.next_col_idx + 1 })
    else
      (none, it)

/-- Repeatedly calling `ColumnIter::__next__` until it yields `None`:
the list of columns the iterator produces (empty when the unchecked row
fetch would panic). -/
def ColumnIter.drain (it : ColumnIter) : List Column :=
  match _hrow : it.rust_rows[it.row_idx]? with
  | none => []
  | some rust_row =>
    if _h : it.next_col_idx < rust_row.columns.length then
      { rust_rows := it.rust_rows, row_idx := it.row_idx,
        col_idx := it.next_col_idx } ::
        ColumnIter.drain { rust_rows := it.rust_rows, row_idx := it.row_idx,
                           next_col_idx := it.next_col_idx + 1 }
    else
      []
termination_by
  (match it.rust_rows[it.row_idx]? with
   | none => 0
   | some r => r.columns.length) - it.next_col_idx
decreasing_by simp_all; omega

/-- `Row::column` of `src/model.rs`: first-position name lookup.  The
row fetch `self.rust_rows[self.row_idx]` is unchecked, so the outer
`none` models that panic; the inner option is the method's return. -/
def Row.column (r : Row) (col_name : String) : Option (Option Column) :=
  (r.rust_rows[r.row_idx]?).map fun row =>
    match row.columns.findIdx? (fun c => c.name == col_name) with
    | some col_idx =>
      some { row_idx := r.row_idx, col_idx := col_idx,
             rust_rows := r.rust_rows }
    | none => none

/-- `Row::column_by_idx` of `src/model.rs`: the outer `none` models the
unchecked row fetch's panic; the inner option is the method's return. -/
def Row.column_by_idx (r : Row) (col_idx : Nat) : Option (Option Column) :=
  (r.rust_rows[r.row_idx]?).map fun row =>
    if col_idx ≥ row.columns.length then
      none
    else
      some { row_idx := r.row_idx, col_idx := col_idx,
             rust_rows := r.rust_rows }

/-- `Row::num_cols` of `src/model.rs`; `none` models the unchecked row
fetch's panic. -/
def Row.num_cols (r : Row) : Option Nat :=
  (r.rust_rows[r.row_idx]?).map fun row => row.columns.length

/-- `Row::iter_columns` of `src/model.rs`. -/
def Row.iter_columns (r : Row) : ColumnIter :=
  { rust_rows := r.rust_rows, row_idx := r.row_idx, next_col_idx := 0 }

/-- The row fetch performed by `Row::__str__` of `src/model.rs` before
formatting; `none` models the unchecked indexing's panic. -/
def Row.str_row (r : Row) : Option RustRow :=
  r.rust_rows[r.row_idx]?

/-- The `Value` pyclass of `src/model.rs`: a wrapper of the native
value, used for writing. -/
structure Value where
  raw_val : RustValue

/-- The `ValueBuilder` pyclass of `src/model.rs` is a unit struct; its
constructor methods follow, one per variant, as plain functions. -/
structure ValueBuilder where

namespace ValueBuilder

/-- `ValueBuilder::null` of `src/model.rs`. -/
def null (_b : ValueBuilder) : Value := { raw_val := RustValue.Null }

/-- `ValueBuilder::timestamp` of `src/model.rs`. -/
def timestamp (_b : ValueBuilder) (timestamp_mills : Int) : Value :=
  { raw_val := RustValue.Timestamp timestamp_mills }

/-- `ValueBuilder::double` of `src/model.rs`. -/
def double (_b : ValueBuilder) (val : Float64) : Value :=
  { raw_val := RustValue.Double val }

/-- `ValueBuilder::float` of `src/model.rs`. -/
def float (_b : ValueBuilder) (val : Float32) : Value :=
  { raw_val := RustValue.Float val }

/-- `ValueBuilder::string` of `src/model.rs`. -/
def string (_b : ValueBuilder) (val : String) : Value :=
  { raw_val := RustValue.String val }

/-- `ValueBuilder::varbinary` of `src/model.rs`. -/
def varbinary (_b : ValueBuilder) (val : List Nat) : Value :=
  { raw_val := RustValue.Varbinary val }

/-- `ValueBuilder::uint64` of `src/model.rs`. -/
def uint64 (_b : ValueBuilder) (val : Nat) : Value :=
  { raw_val := RustValue.UInt64 val }

/-- `ValueBuilder::uint32` of `src/model.rs`. -/
def uint32 (_b : ValueBuilder) (val : Nat) : Value :=
  { raw_val := RustValue.UInt32 val }

/-- `ValueBuilder::uint16` of `src/model.rs`: the Rust method takes an
`i16` and wraps it into `RustValue::Int16`. -/
def uint16 (_b : ValueBuilder) (val : Int) : Value :=
  { raw_val := RustValue.Int16 val }

/-- `ValueBuilder::uint8` of `src/model.rs`. -/
def uint8 (_b : ValueBuilder) (val : Nat) : Value :=
  { raw_val := RustValue.UInt8 val }

/-- `ValueBuilder::int64` of `src/model.rs`. -/
def int64 (_b : ValueBuilder) (val : Int) : Value :=
  { raw_val := RustValue.Int64 val }

/-- `ValueBuilder::int32` of `src/model.rs`. -/
def int32 (_b : ValueBuilder) (val : Int) : Value :=
  { raw_val := RustValue.Int32 val }

/-- `ValueBuilder::int16` of `src/model.rs`: the Rust method takes a
`u16` and wraps it into `RustValue::UInt16`. -/
def int16 (_b : ValueBuilder) (val : Nat) : Value :=
  { raw_val := RustValue.UInt16 val }

/-- `ValueBuilder::int8` of `src/model.rs`. -/
def int8 (_b : ValueBuilder) (val : Int) : Value :=
  { raw_val := RustValue.Int8 val }

/-- `ValueBuilder::bool` of `src/model.rs`. -/
def bool (_b : ValueBuilder) (val : Bool) : Value :=
  { raw_val := RustValue.Boolean val }

end ValueBuilder

/-- The data type read back from a constructed `Value`, composing the
native `data_type()` accessor with the `From<RustDataType>` conversion
of `src/model.rs` (exactly what `Column::data_type` does to a datum). -/
def Value.data_type (v : Value) : DataType :=
  DataType.fromRust v.raw_val.data_type

/-- Modelled from the spec: the reserved column names the external
storage engine treats as implicit (the timestamp and table-name
columns), which must not be reused as tag/field names. -/
def reserved_columns : List String := ["tsid", "timestamp"]

/-- Modelled from the spec: a built write record (the `Point` of
`horaedb_client::model::write::point`): table name, timestamp, tag
pairs and field pairs. -/
structure RustPoint where
  table : String
  timestamp : Int
  tags : List (String × RustValue)
  fields : List (String × RustValue)

/-- Modelled from the spec: the native `PointBuilder` of
`horaedb_client::model::write::point`, which is not part of this
repository.  `set_table`/`set_timestamp` overwrite, `add_tag`/
`add_field` append unconditionally and latch a failure flag on a
reserved name, and `build()` validates: reserved name used, then empty
field set, then timestamp unset (the table name is always supplied to
the constructor in this binding). -/
structure RustPointBuilder where
  table : String
  timestamp : Option Int
  tags : List (String × RustValue)
  fields : List (String × RustValue)
  contains_reserved : Bool

namespace RustPointBuilder

/-- Modelled from the spec: the native builder's constructor. -/
def new (table : String) : RustPointBuilder :=
  { table := table, timestamp := none, tags := [], fields := [],
    contains_reserved := false }

/-- Modelled from the spec: overwrites the table name. -/
def set_table (b : RustPointBuilder) (table : String) : RustPointBuilder :=
  { b with table := table }

/-- Modelled from the spec: overwrites the timestamp. -/
def set_timestamp (b : RustPointBuilder) (ts : Int) : RustPointBuilder :=
  { b with timestamp := some ts }

/-- Modelled from the spec: appends the tag unconditionally and latches
the failure flag when the name is reserved. -/
def tag (b : RustPointBuilder) (name : String) (val : RustValue) :
    RustPointBuilder :=
  { b with tags := b.tags ++ [(name, val)],
           contains_reserved :=
             b.contains_reserved || reserved_columns.contains name }

/-- Modelled from the spec: appends the field unconditionally and
latches the failure flag when the name is reserved. -/
def field (b : RustPointBuilder) (name : String) (val : RustValue) :
    RustPointBuilder :=
  { b with fields := b.fields ++ [(name, val)],
           contains_reserved :=
             b.contains_reserved || reserved_columns.contains name }

/-- Modelled from the spec: deferred validation, failing in priority
order on a reserved name, an empty field set, and an unset timestamp;
on success the accumulated record is returned. -/
def build (b : RustPointBuilder) : Except String RustPoint :=
  if b.contains_reserved then
    Except.error "tag or field name reserved"
  else if b.fields.isEmpty then
    Except.error "no field exists"
  else
    match b.timestamp with
    | none => Except.error "timestamp is not set"
    | some ts =>
      Except.ok { table := b.table, timestamp := ts, tags := b.tags,
                  fields := b.fields }

end RustPointBuilder

/-- The `Point` pyclass of `src/model.rs`: a wrapper of the native
point. -/
structure Point where
  rust_point : RustPoint

/-- The `PointBuilder` pyclass of `src/model.rs`: it holds the native
builder in an `Option` as a workaround for the native builder pattern. -/
structure PointBuilder where
  rust_builder : Option RustPointBuilder

namespace PointBuilder

/-- `PointBuilder::new` of `src/model.rs`. -/
def new (table : String) : PointBuilder :=
  { rust_builder := some (RustPointBuilder.new table) }

/-- `PointBuilder::set_table` of `src/model.rs`: takes the inner
builder, unwraps it (a `none` result models the unwrap panic on a
consumed builder) and stores the updated builder back. -/
def set_table (pb : PointBuilder) (table : String) : Option PointBuilder :=
  (pb.rust_builder).map fun b =>
    { rust_builder := some (b.set_table table) }

/-- `PointBuilder::set_timestamp` of `src/model.rs`; `none` models the
unwrap panic on a consumed builder. -/
def set_timestamp (pb : PointBuilder) (ts : Int) : Option PointBuilder :=
  (pb.rust_builder).map fun b =>
    { rust_builder := some (b.set_timestamp ts) }

/-- `PointBuilder::set_tag` of `src/model.rs`; `none` models the unwrap
panic on a consumed builder. -/
def set_tag (pb : PointBuilder) (name : String) (val : Value) :
    Option PointBuilder :=
  (pb.rust_builder).map fun b =>
    { rust_builder := some (b.tag name val.raw_val) }

/-- `PointBuilder::set_field` of `src/model.rs`; `none` models the
unwrap panic on a consumed builder. -/
def set_field (pb : PointBuilder) (name : String) (val : Value) :
    Option PointBuilder :=
  (pb.rust_builder).map fun b =>
    { rust_builder := some (b.field name val.raw_val) }

/-- `PointBuilder::build` of `src/model.rs`: takes the inner builder
out (leaving `None` behind in every outcome), unwraps it (`none` models
the unwrap panic on a consumed builder) and runs the native build,
mapping its error into the host exception; the returned pair is the
method's result together with the mutated wrapper state. -/
def build (pb : PointBuilder) :
    Option (Except String Point × PointBuilder) :=
  (pb.rust_builder).map fun b =>
    ((RustPointBuilder.build b).map fun p => ({ rust_point := p } : Point),
     { rust_builder := none })

end PointBuilder

/-- Modelled from the spec: the native write request (the `Request` of
`horaedb_client::model::write`), an accumulator of built records whose
`add_point` appends one record. -/
structure RustWriteRequest where
  points : List RustPoint

/-- Modelled from the spec: the native `add_point` appends one built
record to the batch. -/
def RustWriteRequest.add_point (req : RustWriteRequest) (p : RustPoint) :
    RustWriteRequest :=
  { points := req.points ++ [p] }

/-- The `WriteRequest` pyclass of `src/model.rs`, wrapping the native
request.  The native `Default` is the empty batch. -/
structure WriteRequest where
  rust_request : RustWriteRequest

/-- `WriteRequest::new` of `src/model.rs` (the `Default` instance). -/
def WriteRequest.new : WriteRequest :=
  { rust_request := { points := [] } }

/-- `WriteRequest::add_point` of `src/model.rs`. -/
def WriteRequest.add_point (req : WriteRequest) (point : Point) :
    WriteRequest :=
  { rust_request := req.rust_request.add_point point.rust_point }

/-- `WriteRequest::add_points` of `src/model.rs`: a loop calling
`add_point` on each element in input order, i.e. a left fold. -/
def WriteRequest.add_points (req : WriteRequest) (points : List Point) :
    WriteRequest :=
  points.foldl WriteRequest.add_point req

/-- Modelled from the spec: the native write response (the `Response`
of `horaedb_client::model::write`), immutable success/failure counters. -/
structure RustWriteResponse where
  success : Nat
  failed : Nat

/-- The `WriteResponse` pyclass of `src/model.rs`. -/
structure WriteResponse where
  rust_response : RustWriteResponse

/-- `impl From<RustWriteResponse> for WriteResponse` of `src/model.rs`. -/
def WriteResponse.fromRust (resp : RustWriteResponse) : WriteResponse :=
  { rust_response := resp }

/-- `WriteResponse::get_success` of `src/model.rs`. -/
def WriteResponse.get_success (resp : WriteResponse) : Nat :=
  resp.rust_response.success

/-- `WriteResponse::get_failed` of `src/model.rs`. -/
def WriteResponse.get_failed (resp : WriteResponse) : Nat :=
  resp.rust_response.failed

/-- Model of `std::time::Duration` at the granularity this layer uses:
`Duration::from_millis n` is the duration of exactly `n` milliseconds. -/
structure Duration where
  millis : Nat
deriving DecidableEq, Repr

/-- `Duration::from_millis` of the Rust standard library. -/
def Duration.from_millis (n : Nat) : Duration :=
  { millis := n }

/-- The `RpcContext` pyclass of `src/client.rs`: per-call overrides. -/
structure RpcContext where
  database : Option String
  timeout_ms : Option Nat

/-- Modelled from the spec: the native `horaedb_client::RpcContext`,
with a database override and a timeout duration. -/
structure RustRpcContext where
  database : Option String
  timeout : Option Duration

/-- `impl From<RpcContext> for RustRpcContext` of `src/client.rs`. -/
def RpcContext.toRust (ctx : RpcContext) : RustRpcContext :=
  { database := ctx.database,
    timeout := ctx.timeout_ms.map Duration.from_millis }

/-- The `RpcConfig` pyclass of `src/client.rs`: plain configuration
values, with every duration expressed in milliseconds. -/
structure RpcConfig where
  thread_num : Int
  max_send_msg_len : Int
  max_recv_msg_len : Int
  keep_alive_interval_ms : Nat
  keep_alive_timeout_ms : Nat
  keep_alive_while_idle : Bool
  default_write_timeout_ms : Nat
  default_sql_query_timeout_ms : Nat
  connect_timeout_ms : Nat

/-- Modelled from the spec: the native `horaedb_client::RpcConfig`,
whose duration fields are `std::time::Duration` values. -/
structure RustRpcConfig where
  thread_num : Option Nat
  max_send_msg_len : Int
  max_recv_msg_len : Int
  keep_alive_interval : Duration
  keep_alive_timeout : Duration
  keep_alive_while_idle : Bool
  default_write_timeout : Duration
  default_sql_query_timeout : Duration
  connect_timeout : Duration

/-- `impl From<RpcConfig> for RustRpcConfig` of `src/client.rs`: a
positive `thread_num` is kept (as `usize`), a non-positive one becomes
`None`; every `*_ms` field goes through `Duration::from_millis`. -/
def RpcConfig.toRust (config : RpcConfig) : RustRpcConfig :=
  { thread_num :=
      if config.thread_num > 0 then some config.thread_num.toNat else none,
    max_send_msg_len := config.max_send_msg_len,
    max_recv_msg_len := config.max_recv_msg_len,
    keep_alive_interval := Duration.from_millis config.keep_alive_interval_ms,
    keep_alive_timeout := Duration.from_millis config.keep_alive_timeout_ms,
    keep_alive_while_idle := config.keep_alive_while_idle,
    default_write_timeout :=
      Duration.from_millis config.default_write_timeout_ms,
    default_sql_query_timeout :=
      Duration.from_millis config.default_sql_query_timeout_ms,
    connect_timeout := Duration.from_millis config.connect_timeout_ms }

/-- Concrete demo row mirroring the spec's example scenario: a
timestamp column `ts` and an `Int32` column `v` holding 42. -/
def demo_rust_row : RustRow :=
  { columns := [{ name := "ts", value := RustValue.Timestamp 1700000000000 },
                { name := "v", value := RustValue.Int32 42 }] }

/-- Concrete demo row buffer with the single demo row. -/
def demo_rows : List RustRow := [demo_rust_row]

/-- Concrete demo query response over the demo buffer, with
`affected_rows = 0`. -/
def demo_resp : SqlQueryResponse :=
  { rust_rows := demo_rows, affected_rows := 0 }

/-- Concrete demo row view at position 0 of the demo buffer. -/
def demo_row : Row :=
  { row_idx := 0, rust_rows := demo_rows }

/-- C1 (code defect): evaluating the `ValueBuilder` variants shows that
`uint16` constructs a value whose data type reads back as `Int16` and
`int16` one that reads back as `UInt16` — swapped relative to their
names — while the other thirteen variants round-trip to their matching
tags. -/
theorem valuebuilder_uint16_int16_swapped :
    ((ValueBuilder.mk).uint16 5).data_type = DataType.Int16 ∧
    ((ValueBuilder.mk).int16 7).data_type = DataType.UInt16 ∧
    DataType.Int16 ≠ DataType.UInt16 ∧
    ∀ (b : ValueBuilder) (ts i64v i32v i8v sv : Int) (d : Float64)
      (fl : Float32) (s : String) (vb : List Nat)
      (u64v u32v u8v uv : Nat) (bv : Bool),
      (b.null).data_type = DataType.Null ∧
      (b.timestamp ts).data_type = DataType.Timestamp ∧
      (b.double d).data_type = DataType.Double ∧
      (b.float fl).data_type = DataType.Float ∧
      (b.varbinary vb).data_type = DataType.Varbinary ∧
      (b.string s).data_type = DataType.String ∧
      (b.uint64 u64v).data_type = DataType.UInt64 ∧
      (b.uint32 u32v).data_type = DataType.UInt32 ∧
      (b.uint8 u8v).data_type = DataType.UInt8 ∧
      (b.int64 i64v).data_type = DataType.Int64 ∧
      (b.int32 i32v).data_type = DataType.Int32 ∧
      (b.int8 i8v).data_type = DataType.Int8 ∧
      (b.bool bv).data_type = DataType.Boolean ∧
      (b.uint16 sv).data_type = DataType.Int16 ∧
      (b.int16 uv).data_type = DataType.UInt16 := by
  refine ⟨rfl, rfl, by decide, ?_⟩
  intro b ts i64v i32v i8v sv d fl s vb u64v u32v u8v uv bv
  exact ⟨rfl, rfl, rfl, rfl, rfl, rfl, rfl, rfl, rfl, rfl, rfl, rfl, rfl,
         rfl, rfl⟩

/-- C3: `row_by_idx` returns the row view exactly when the index is
strictly below the row count and `None` otherwise, and `num_rows` and
the `affected_rows` getter are pure accessors of the stored state. -/
theorem row_by_idx_some_iff :
    ∀ (resp : SqlQueryResponse) (idx : Nat),
      (resp.row_by_idx idx =
          some { row_idx := idx, rust_rows := resp.rust_rows } ↔
        idx < resp.num_rows) ∧
      (resp.row_by_idx idx = none ↔ resp.num_rows ≤ idx) ∧
      ((resp.row_by_idx idx).isSome ↔ idx < resp.num_rows) ∧
      resp.num_rows = resp.rust_rows.length ∧
      resp.get_affected_rows = resp.affected_rows := by
  intro resp idx
  refine ⟨?_, ?_, ?_, rfl, rfl⟩ <;>
  · simp only [SqlQueryResponse.row_by_idx, SqlQueryResponse.num_rows]
    by_cases h : resp.rust_rows.length > idx <;> simp [h] <;> omega

/-- C5: on a live `PointBuilder` (inner builder present, as after `new`
and after any setter), `set_table`, `set_timestamp`, `set_tag` and
`set_field` all succeed at call time, returning a live builder and
never an error — even for a reserved tag or field name, whose violation
surfaces only when `build()` later reports the reserved-name error. -/
theorem point_builder_setters_succeed :
    ∀ (b : RustPointBuilder) (t name : String) (ts : Int) (v : Value),
      PointBuilder.set_table { rust_builder := some b } t =
        some { rust_builder := some (b.set_table t) } ∧
      PointBuilder.set_timestamp { rust_builder := some b } ts =
        some { rust_builder := some (b.set_timestamp ts) } ∧
      PointBuilder.set_tag { rust_builder := some b } name v =
        some { rust_builder := some (b.tag name v.raw_val) } ∧
      PointBuilder.set_field { rust_builder := some b } name v =
        some { rust_builder := some (b.field name v.raw_val) } ∧
      (reserved_columns.contains name = true →
        PointBuilder.build { rust_builder := some (b.tag name v.raw_val) } =
          some (Except.error "tag or field name reserved",
                { rust_builder := none }) ∧
        PointBuilder.build { rust_builder := some (b.field name v.raw_val) } =
          some (Except.error "tag or field name reserved",
                { rust_builder := none })) := by
  intro b t name ts v
  refine ⟨rfl, rfl, rfl, rfl, fun hres => ⟨?_, ?_⟩⟩ <;>
  · have hmem : name ∈ reserved_columns := by simpa using hres
    simp [PointBuilder.build, RustPointBuilder.build, RustPointBuilder.tag,
          RustPointBuilder.field, hmem, Except.map]

/-- Witness for C5 at a concrete input: adding the reserved name
`timestamp` as a tag or field on a fresh builder for table `cpu`
succeeds at call time, and the violation surfaces at `build()`. -/
theorem point_builder_setters_succeed_witness :
    reserved_columns.contains "timestamp" = true ∧
    PointBuilder.build
        { rust_builder :=
            some ((RustPointBuilder.new "cpu").tag "timestamp"
                    RustValue.Null) } =
      some (Except.error "tag or field name reserved",
            { rust_builder := none }) ∧
    PointBuilder.build
        { rust_builder :=
            some ((RustPointBuilder.new "cpu").field "timestamp"
                    RustValue.Null) } =
      some (Except.error "tag or field name reserved",
            { rust_builder := none }) :=
  ⟨rfl,
   (point_builder_setters_succeed (RustPointBuilder.new "cpu") "t"
       "timestamp" 1700 { raw_val := RustValue.Null }).2.2.2.2 rfl⟩

/-- C6: `build()` always leaves the wrapper's inner builder `None`,
whether the native build succeeds or fails, and every subsequent call
on the consumed wrapper hits the `unwrap` of `None` (modelled `none`)
instead of operating on stale accumulated state. -/
theorem point_builder_consumed_after_build :
    ∀ (b : RustPointBuilder) (t name : String) (ts : Int) (v : Value),
      PointBuilder.build { rust_builder := some b } =
        some ((RustPointBuilder.build b).map
                (fun p => ({ rust_point := p } : Point)),
              { rust_builder := none }) ∧
      PointBuilder.set_table { rust_builder := none } t = none ∧
      PointBuilder.set_timestamp { rust_builder := none } ts = none ∧
      PointBuilder.set_tag { rust_builder := none } name v = none ∧
      PointBuilder.set_field { rust_builder := none } name v = none ∧
      PointBuilder.build { rust_builder := none } = none := by
  intro b t name ts v
  exact ⟨rfl, rfl, rfl, rfl, rfl, rfl⟩

/-- Helper: the batch accumulated by `add_points` is the original batch
followed by the native points of the input list, in input order. -/
lemma add_points_points_eq :
    ∀ (ps : List Point) (req : WriteRequest),
      (req.add_points ps).rust_request.points =
        req.rust_request.points ++ ps.map Point.rust_point := by
  intro ps
  induction ps with
  | nil => intro req; simp [WriteRequest.add_points]
  | cons p ps ih =>
    intro req
    have hstep : req.add_points (p :: ps) = (req.add_point p).add_points ps :=
      rfl
    rw [hstep, ih]
    simp [WriteRequest.add_point, RustWriteRequest.add_point]

/-- C7: `add_points` is exactly the left fold of `add_point` over the
input list, and the resulting batch appends the input points to the
accumulated batch in input order. -/
theorem add_points_equals_repeated_add_point :
    ∀ (req : WriteRequest) (points : List Point),
      req.add_points points = points.foldl WriteRequest.add_point req ∧
      (req.add_points points).rust_request.points =
        req.rust_request.points ++ points.map Point.rust_point := by
  intro req points
  exact ⟨rfl, add_points_points_eq points req⟩

/-- C8: the success and failure accessors of a `WriteResponse` return
exactly the counters the response was constructed with; being pure
projections of immutable state, repeated calls agree trivially. -/
theorem write_response_counters_exact :
    ∀ (s f : Nat) (resp : WriteResponse),
      (WriteResponse.fromRust { success := s, failed := f }).get_success =
        s ∧
      (WriteResponse.fromRust { success := s, failed := f }).get_failed =
        f ∧
      resp.get_success = resp.rust_response.success ∧
      resp.get_failed = resp.rust_response.failed := by
  intro s f resp
  exact ⟨rfl, rfl, rfl, rfl⟩

/-- C9: the conversions of `src/client.rs` perform unit marshaling
only: the database passes through unchanged, a `timeout_ms` of `n`
becomes a duration of exactly `n` milliseconds (`None` stays `None`),
and every `*_ms` field of `RpcConfig` becomes a duration of exactly
that many milliseconds. -/
theorem rpc_conversions_marshal_units_only :
    ∀ (db : Option String) (n : Nat) (ctx : RpcContext) (cfg : RpcConfig),
      (ctx.toRust).database = ctx.database ∧
      (RpcContext.toRust { database := db, timeout_ms := some n }).timeout =
        some (Duration.from_millis n) ∧
      (Duration.from_millis n).millis = n ∧
      (RpcContext.toRust { database := db, timeout_ms := none }).timeout =
        none ∧
      (cfg.toRust).keep_alive_interval.millis = cfg.keep_alive_interval_ms ∧
      (cfg.toRust).keep_alive_timeout.millis = cfg.keep_alive_timeout_ms ∧
      (cfg.toRust).default_write_timeout.millis =
        cfg.default_write_timeout_ms ∧
      (cfg.toRust).default_sql_query_timeout.millis =
        cfg.default_sql_query_timeout_ms ∧
      (cfg.toRust).connect_timeout.millis = cfg.connect_timeout_ms := by
  intro db n ctx cfg
  exact ⟨rfl, rfl, rfl, rfl, rfl, rfl, rfl, rfl, rfl⟩

/-- Helper: draining a `RowIter` positioned at `i` yields one row view
per remaining position, in increasing position order. -/
lemma rowIter_drain_eq (rows : List RustRow) :
    ∀ (n i : Nat), rows.length - i = n →
      RowIter.drain { rust_rows := rows, next_row_idx := i } =
        (List.range' i n).map
          fun k => ({ row_idx := k, rust_rows := rows } : Row) := by
  intro n
  induction n with
  | zero =>
    intro i h
    unfold RowIter.drain
    have hge : ¬ rows.length > i := by omega
    rw [dif_neg hge]
    simp
  | succ m ih =>
    intro i h
    unfold RowIter.drain
    have hlt : rows.length > i := by omega
    rw [dif_pos hlt, ih (i + 1) (by omega), List.range'_succ]
    simp

/-- Helper: draining a `ColumnIter` positioned at column `j` of a row
present in the buffer yields one column view per remaining column
position, in increasing position order. -/
lemma columnIter_drain_eq (rows : List RustRow) (ri : Nat)
    (rust_row : RustRow) (hrow : rows[ri]? = some rust_row) :
    ∀ (n j : Nat), rust_row.columns.length - j = n →
      ColumnIter.drain { rust_rows := rows, row_idx := ri,
                         next_col_idx := j } =
        (List.range' j n).map
          fun k =>
            ({ row_idx := ri, col_idx := k, rust_rows := rows } : Column) := by
  intro n
  induction n with
  | zero =>
    intro j h
    unfold ColumnIter.drain
    split
    · simp
    · next rust_row2 heq =>
      rw [hrow] at heq
      injection heq with he
      subst he
      have hge : ¬ j < rust_row.columns.length := by omega
      rw [dif_neg hge]
      simp
  | succ m ih =>
    intro j h
    unfold ColumnIter.drain
    split
    · next heq => rw [hrow] at heq; cases heq
    · next rust_row2 heq =>
      rw [hrow] at heq
      injection heq with he
      subst he
      have hlt : j < rust_row.columns.length := by omega
      rw [dif_pos hlt, ih (j + 1) (by omega), List.range'_succ]
      simp

/-- C4: draining the iterator returned by `iter_rows` yields exactly
`num_rows()` row views at positions `0, 1, ..., n-1` in order, and an
exhausted iterator keeps answering `None` without changing state;
likewise `iter_columns` of a row present in the buffer yields exactly
`num_cols()` column views in position order.  Both iterators are
restartable: `iter_rows`/`iter_columns` construct a fresh iterator at
position 0 from the immutable shared buffer, so every fresh call
produces the same sequence again. -/
theorem iterators_enumerate_in_position_order :
    ∀ (resp : SqlQueryResponse) (r : Row) (rust_row : RustRow)
      (it : RowIter) (cit : ColumnIter),
      RowIter.drain resp.iter_rows =
        (List.range resp.num_rows).map
          (fun k => ({ row_idx := k, rust_rows := resp.rust_rows } : Row)) ∧
      (RowIter.drain resp.iter_rows).length = resp.num_rows ∧
      resp.iter_rows = { rust_rows := resp.rust_rows, next_row_idx := 0 } ∧
      (it.rust_rows.length ≤ it.next_row_idx → it.next = (none, it)) ∧
      (r.rust_rows[r.row_idx]? = some rust_row →
        ColumnIter.drain r.iter_columns =
          (List.range rust_row.columns.length).map
            (fun k => ({ row_idx := r.row_idx, col_idx := k,
                         rust_rows := r.rust_rows } : Column)) ∧
        (ColumnIter.drain r.iter_columns).length =
          rust_row.columns.length ∧
        r.num_cols = some rust_row.columns.length ∧
        r.iter_columns = { rust_rows := r.rust_rows, row_idx := r.row_idx,
                           next_col_idx := 0 }) ∧
      (cit.rust_rows[cit.row_idx]? = some rust_row →
        rust_row.columns.length ≤ cit.next_col_idx →
        cit.next = some (none, cit)) := by
  intro resp r rust_row it cit
  have hrows :
      RowIter.drain resp.iter_rows =
        (List.range' 0 resp.num_rows).map
          (fun k => ({ row_idx := k, rust_rows := resp.rust_rows } : Row)) :=
    rowIter_drain_eq resp.rust_rows resp.num_rows 0 rfl
  refine ⟨?_, ?_, rfl, ?_, ?_, ?_⟩
  · rw [hrows, List.range_eq_range']
  · rw [hrows]
    simp [SqlQueryResponse.num_rows]
  · intro hend
    unfold RowIter.next
    rw [if_neg (by omega)]
  · intro hrow
    have hcols :
        ColumnIter.drain r.iter_columns =
          (List.range' 0 rust_row.columns.length).map
            (fun k => ({ row_idx := r.row_idx, col_idx := k,
                         rust_rows := r.rust_rows } : Column)) :=
      columnIter_drain_eq r.rust_rows r.row_idx rust_row hrow
        rust_row.columns.length 0 rfl
    refine ⟨?_, ?_, ?_, rfl⟩
    · rw [hcols, List.range_eq_range']
    · rw [hcols]; simp
    · simp [Row.num_cols, hrow]
  · intro hrow hend
    unfold ColumnIter.next
    rw [hrow]
    simp only [Option.map_some']
    rw [if_neg (by omega)]

/-- Witness for C4 at the concrete demo response: the row iterator
yields exactly the single row view and the column iterator of that row
yields exactly its two column views, in position order. -/
theorem iterators_enumerate_in_position_order_witness :
    demo_rows[(0 : Nat)]? = some demo_rust_row ∧
    RowIter.drain demo_resp.iter_rows = [demo_row] ∧
    ColumnIter.drain demo_row.iter_columns =
      [{ row_idx := 0, col_idx := 0, rust_rows := demo_rows },
       { row_idx := 0, col_idx := 1, rust_rows := demo_rows }] ∧
    demo_row.num_cols = some 2 := by
  have h :=
    iterators_enumerate_in_position_order demo_resp demo_row demo_rust_row
      demo_resp.iter_rows demo_row.iter_columns
  have hrow : demo_rows[(0 : Nat)]? = some demo_rust_row := rfl
  have hcols := h.2.2.2.2.1 hrow
  refine ⟨hrow, ?_, ?_, ?_⟩
  · rw [h.1]; rfl
  · rw [hcols.1]; rfl
  · rw [hcols.2.2.1]; rfl

/-- C2: for a row view whose position is present in the shared buffer,
`column_by_idx i` with `i < num_cols` returns the column view at that
exact (row, column) position and its `value` is the datum stored there;
`column name` returns the view at the first position whose name equals
the argument exactly; an out-of-range index or a name matching no
column yields the not-found `None` (the inner option), never the
out-of-bounds panic (the outer option stays `some`). -/
theorem row_column_lookup (r : Row) (rust_row : RustRow)
    (hr : r.rust_rows[r.row_idx]? = some rust_row) :
    (∀ i, i < rust_row.columns.length →
      r.column_by_idx i =
        some (some { row_idx := r.row_idx, col_idx := i,
                     rust_rows := r.rust_rows }) ∧
      Column.value { row_idx := r.row_idx, col_idx := i,
                     rust_rows := r.rust_rows } =
        (rust_row.columns[i]?).map RustColumn.value) ∧
    (∀ i, rust_row.columns.length ≤ i → r.column_by_idx i = some none) ∧
    r.num_cols = some rust_row.columns.length ∧
    (∀ name : String,
      (∀ c ∈ rust_row.columns, c.name ≠ name) →
      r.column name = some none) ∧
    (∀ (name : String) (j : Nat) (hj : j < rust_row.columns.length),
      (rust_row.columns.get ⟨j, hj⟩).name = name →
      (∀ k (hk : k < j),
        (rust_row.columns.get ⟨k, hk.trans hj⟩).name ≠ name) →
      r.column name =
        some (some { row_idx := r.row_idx, col_idx := j,
                     rust_rows := r.rust_rows })) := by
  refine ⟨?_, ?_, ?_, ?_, ?_⟩
  · intro i hi
    constructor
    · unfold Row.column_by_idx
      rw [hr, Option.map_some']
      rw [if_neg (by omega)]
    · unfold Column.value Column.get_rust_col
      rw [hr]
      rfl
  · intro i hi
    unfold Row.column_by_idx
    rw [hr, Option.map_some']
    rw [if_pos (by omega)]
  · simp [Row.num_cols, hr]
  · intro name hnone
    have hfind :
        rust_row.columns.findIdx? (fun c => c.name == name) = none := by
      rw [List.findIdx?_eq_none_iff]
      intro c hc
      rw [beq_eq_false_iff_ne]
      exact hnone c hc
    unfold Row.column
    rw [hr, Option.map_some', hfind]
  · intro name j hj hname hbelow
    have pj : ((fun c => c.name == name) rust_row.columns[j]) = true := by
      simp only []
      rw [beq_iff_eq]
      simpa [List.get_eq_getElem] using hname
    have pbelow : ∀ k (hk : k < j),
        ((fun c => c.name == name)
          (rust_row.columns.get ⟨k, hk.trans hj⟩)) = false := by
      intro k hk
      simp only []
      rw [beq_eq_false_iff_ne]
      simpa [List.get_eq_getElem] using hbelow k hk
    have hfind :
        rust_row.columns.findIdx? (fun c => c.name == name) = some j := by
      rw [List.findIdx?_eq_some_iff_findIdx_eq]
      exact ⟨hj, (List.findIdx_eq hj).mpr ⟨pj, pbelow⟩⟩
    unfold Row.column
    rw [hr, Option.map_some', hfind]

/-- Witness for C2 at the concrete demo row: index 1 and name `v` both
resolve to the `Int32 42` column at position (0, 1), and an unknown
name resolves to the not-found outcome. -/
theorem row_column_lookup_witness :
    demo_rows[(0 : Nat)]? = some demo_rust_row ∧
    Row.column_by_idx demo_row 1 =
      some (some { row_idx := 0, col_idx := 1, rust_rows := demo_rows }) ∧
    Row.column demo_row "v" =
      some (some { row_idx := 0, col_idx := 1, rust_rows := demo_rows }) ∧
    Column.value { row_idx := 0, col_idx := 1, rust_rows := demo_rows } =
      some (RustValue.Int32 42) ∧
    Row.column demo_row "missing" = some none ∧
    Row.column_by_idx demo_row 2 = some none := by
  have h := row_column_lookup demo_row demo_rust_row rfl
  have hj : (1 : Nat) < demo_rust_row.columns.length := by
    simp [demo_rust_row]
  refine ⟨rfl, (h.1 1 hj).1, ?_, ?_, ?_, h.2.1 2 (by simp [demo_rust_row])⟩
  · refine h.2.2.2.2 "v" 1 hj rfl ?_
    intro k hk
    have hk0 : k = 0 := by omega
    subst hk0
    simp [demo_rust_row]
  · exact (h.1 1 hj).2.trans rfl
  · refine h.2.2.2.1 "missing" ?_
    intro c hc
    simp only [demo_rust_row] at hc
    fin_cases hc <;> decide

/-- C10: every view reachable through the public interface keeps its
stored indices within the shared buffer's bounds: rows handed out by
`row_by_idx` or row iteration have a row index below the buffer's row
count, and for such rows the unchecked indexing inside `num_cols`,
`__str__`, `column`, `column_by_idx`, column iteration and
`get_rust_col` never goes out of bounds (the modelled panic `none`
never occurs); `ColumnIter::__next__` preserves the in-bounds row index
and yields only columns addressing an existing datum. -/
theorem views_stay_in_bounds :
    ∀ (resp : SqlQueryResponse) (idx : Nat) (r : Row) (name : String)
      (i : Nat) (it : ColumnIter),
      (resp.row_by_idx idx = some r →
        r.row_idx < r.rust_rows.length ∧ r.rust_rows = resp.rust_rows) ∧
      (r ∈ RowIter.drain resp.iter_rows →
        r.row_idx < r.rust_rows.length ∧ r.rust_rows = resp.rust_rows) ∧
      (r.row_idx < r.rust_rows.length →
        (r.num_cols).isSome ∧
        (r.str_row).isSome ∧
        (r.column name).isSome ∧
        (r.column_by_idx i).isSome ∧
        (∀ c, r.column name = some (some c) → c.get_rust_col.isSome) ∧
        (∀ c, r.column_by_idx i = some (some c) →
          c.get_rust_col.isSome) ∧
        (∀ c, c ∈ ColumnIter.drain r.iter_columns →
          c.get_rust_col.isSome)) ∧
      (it.row_idx < it.rust_rows.length →
        (it.next).isSome ∧
        (∀ oc it2, it.next = some (oc, it2) →
          it2.row_idx = it.row_idx ∧ it2.rust_rows = it.rust_rows) ∧
        (∀ c it2, it.next = some (some c, it2) →
          c.get_rust_col.isSome)) := by
  intro resp idx r name i it
  refine ⟨?_, ?_, ?_, ?_⟩
  · intro h
    unfold SqlQueryResponse.row_by_idx at h
    by_cases hlt : resp.rust_rows.length > idx
    · rw [if_pos hlt] at h
      cases h
      exact ⟨hlt, rfl⟩
    · rw [if_neg hlt] at h
      cases h
  · intro h
    have hd : RowIter.drain resp.iter_rows =
        (List.range' 0 resp.num_rows).map
          (fun k => ({ row_idx := k, rust_rows := resp.rust_rows } : Row)) :=
      rowIter_drain_eq resp.rust_rows resp.num_rows 0 rfl
    rw [hd] at h
    obtain ⟨k, hk, hfk⟩ := List.mem_map.mp h
    rw [List.mem_range'_1] at hk
    subst hfk
    exact ⟨by simpa [SqlQueryResponse.num_rows] using hk.2, rfl⟩
  · intro hv
    have hrow : r.rust_rows[r.row_idx]? = some r.rust_rows[r.row_idx] :=
      List.getElem?_eq_getElem hv
    have hcolsome : ∀ j, j < (r.rust_rows[r.row_idx]).columns.length →
        (Column.get_rust_col
          { row_idx := r.row_idx, col_idx := j,
            rust_rows := r.rust_rows }).isSome := by
      intro j hj
      simp [Column.get_rust_col, hrow, List.getElem?_eq_getElem hj]
    refine ⟨?_, ?_, ?_, ?_, ?_, ?_, ?_⟩
    · simp [Row.num_cols, hrow]
    · simp [Row.str_row, hrow]
    · unfold Row.column
      rw [hrow, Option.map_some']
      simp
    · unfold Row.column_by_idx
      rw [hrow, Option.map_some']
      simp
    · intro c hc
      unfold Row.column at hc
      rw [hrow, Option.map_some'] at hc
      injection hc with hc2
      cases hfind : (r.rust_rows[r.row_idx]).columns.findIdx?
          (fun col => col.name == name) with
      | none => rw [hfind] at hc2; cases hc2
      | some j =>
        rw [hfind] at hc2
        injection hc2 with hc3
        subst hc3
        exact hcolsome j
          (List.findIdx?_eq_some_iff_findIdx_eq.mp hfind).1
    · intro c hc
      unfold Row.column_by_idx at hc
      rw [hrow, Option.map_some'] at hc
      injection hc with hc2
      by_cases hge : i ≥ (r.rust_rows[r.row_idx]).columns.length
      · rw [if_pos hge] at hc2; cases hc2
      · rw [if_neg hge] at hc2
        injection hc2 with hc3
        subst hc3
        exact hcolsome i (by omega)
    · intro c hc
      have hcd : ColumnIter.drain r.iter_columns =
          (List.range' 0 (r.rust_rows[r.row_idx]).columns.length).map
            (fun k => ({ row_idx := r.row_idx, col_idx := k,
                         rust_rows := r.rust_rows } : Column)) :=
        columnIter_drain_eq r.rust_rows r.row_idx r.rust_rows[r.row_idx]
          hrow (r.rust_rows[r.row_idx]).columns.length 0 rfl
      rw [hcd] at hc
      obtain ⟨k, hk, hfk⟩ := List.mem_map.mp hc
      rw [List.mem_range'_1] at hk
      subst hfk
      exact hcolsome k (by omega)
  · intro hv
    have hrow : it.rust_rows[it.row_idx]? = some it.rust_rows[it.row_idx] :=
      List.getElem?_eq_getElem hv
    refine ⟨?_, ?_, ?_⟩
    · unfold ColumnIter.next
      rw [hrow, Option.map_some']
      simp
    · intro oc it2 h
      unfold ColumnIter.next at h
      rw [hrow, Option.map_some'] at h
      injection h with h2
      by_cases hlt : it.next_col_idx < (it.rust_rows[it.row_idx]).columns.length
      · rw [if_pos hlt] at h2
        cases h2
        exact ⟨rfl, rfl⟩
      · rw [if_neg hlt] at h2
        cases h2
        exact ⟨rfl, rfl⟩
    · intro c it2 h
      unfold ColumnIter.next at h
      rw [hrow, Option.map_some'] at h
      injection h with h2
      by_cases hlt : it.next_col_idx < (it.rust_rows[it.row_idx]).columns.length
      · rw [if_pos hlt] at h2
        injection h2 with h3 h4
        injection h3 with h5
        subst h5
        simp [Column.get_rust_col, hrow, List.getElem?_eq_getElem hlt]
      · rw [if_neg hlt] at h2
        injection h2 with h3 h4
        cases h3

/-- Witness for C10 at the concrete demo response: the row view handed
out for index 0 is in bounds, and its lookup and iteration results
address existing data. -/
theorem views_stay_in_bounds_witness :
    SqlQueryResponse.row_by_idx demo_resp 0 = some demo_row ∧
    (demo_row.row_idx < demo_row.rust_rows.length ∧
      demo_row.rust_rows = demo_resp.rust_rows) ∧
    (demo_row.column "v").isSome ∧
    (demo_row.column_by_idx 1).isSome ∧
    (demo_row.num_cols).isSome := by
  have h := views_stay_in_bounds demo_resp 0 demo_row "v" 1
    demo_row.iter_columns
  have hv : demo_row.row_idx < demo_row.rust_rows.length := by
    simp [demo_row, demo_rows]
  have hc := h.2.2.1 hv
  exact ⟨rfl, h.1 rfl, hc.2.2.1, hc.2.2.2.1, hc.1⟩
